import Mathlib

/- Verification of the order-ingestion service (store-api).
   The definitions below are a shallow embedding of src/store-api/main.go:
   SanitizeInput, the /buy handler, and the startup sequence
   (initDB retry loop, table creation, initRedis ping). -/

namespace StoreApi

/-- The single-quote character (code point 39), one of the four characters
stripped by SanitizeInput. -/
def squote : Char := Char.ofNat 39

/-- strings.ReplaceAll specialized to a one-character pattern and the empty
replacement string, the only form used by SanitizeInput: scan left to
right, dropping every occurrence of the character. -/
def replaceAll1 (s : List Char) (old : Char) : List Char :=
  match s with
  | [] => []
  | c :: cs => if c = old then replaceAll1 cs old else c :: replaceAll1 cs old

/-- String-level wrapper of strings.ReplaceAll(s, string(old), ""). -/
def replaceAllChar (s : String) (old : Char) : String :=
  String.mk (replaceAll1 s.data old)

/-- Embedding of SanitizeInput from main.go: four successive ReplaceAll
calls removing every occurrence of the characters below-sign, above-sign,
single quote and semicolon. -/
def SanitizeInput (input : String) : String :=
  let safe := replaceAllChar input '<'
  let safe := replaceAllChar safe '>'
  let safe := replaceAllChar safe squote
  replaceAllChar safe ';'

/-- A character is on the denylist stripped by SanitizeInput. -/
def dangerous (c : Char) : Bool :=
  c = '<' || c = '>' || c = squote || c = ';'

theorem replaceAll1_eq_filter (s : List Char) (old : Char) :
    replaceAll1 s old = s.filter (fun x => !(x == old)) := by
  induction s with
  | nil => rfl
  | cons c cs ih =>
    by_cases h : c = old <;>
      simp [replaceAll1, List.filter_cons, h, ih, beq_iff_eq]

theorem sanitize_data_eq_filter (s : String) :
    (SanitizeInput s).data = s.data.filter (fun c => !(dangerous c)) := by
  simp only [SanitizeInput, replaceAllChar, replaceAll1_eq_filter,
    List.filter_filter, dangerous]
  congr 1
  funext c
  by_cases h1 : c = '<' <;> by_cases h2 : c = '>' <;>
    by_cases h3 : c = squote <;> by_cases h4 : c = ';' <;>
    simp [h1, h2, h3, h4]

/-- The designated submission method, http.MethodPost. -/
def methodPost : String := "POST"

/-- The request body shape, struct OrderRequest in main.go. -/
structure OrderRequest where
  product_id : String
  quantity : Int
deriving DecidableEq

/-- One row of the orders table: id SERIAL PRIMARY KEY, product_id,
quantity, status (the created_at column is store-assigned and carries no
logic, so it is not modelled). -/
structure OrderRow where
  id : Nat
  product_id : String
  quantity : Int
  status : String
deriving DecidableEq

/-- The durable store: the next SERIAL identifier and the rows so far. -/
structure DBState where
  nextID : Nat
  rows : List OrderRow
deriving DecidableEq

/-- The message published on the orders channel, built in buyHandler as
the map with keys order_id, product_id, quantity. -/
structure Notification where
  order_id : Nat
  product_id : String
  quantity : Int
deriving DecidableEq

/-- The JSON success payload written by buyHandler: keys status,
product_id, order_id. -/
structure RespBody where
  status : String
  product_id : String
  order_id : Nat
deriving DecidableEq

/-- Observable outcome of one buyHandler call: HTTP status code, JSON
body (none for the http.Error paths, which send plain text), the store
state after the call, and the notifications published during the call. -/
structure HandlerResult where
  code : Nat
  body : Option RespBody
  db : DBState
  published : List Notification
deriving DecidableEq

/-- The INSERT ... RETURNING id: the store assigns the next serial
identifier, appends a row with status pending, and returns the id. -/
def dbInsert (db : DBState) (pid : String) (qty : Int) : Nat × DBState :=
  let oid := db.nextID
  (oid, ⟨oid + 1, db.rows ++ [⟨oid, pid, qty, "pending"⟩]⟩)

/-- Embedding of buyHandler from main.go. The environment is explicit:
decoded is the result of json Decode on the body (none on decode error),
dbFails says whether the INSERT fails, redisFails whether the Publish
fails. Control flow mirrors the source: method check, decode check,
sanitize, insert (500 on failure), publish (failure only logged), 200
response with status text, sanitized product id and order id. -/
def buyHandler (method : String) (decoded : Option OrderRequest)
    (db : DBState) (dbFails : Bool) (redisFails : Bool) : HandlerResult :=
  if method ≠ methodPost then
    ⟨405, none, db, []⟩
  else
    match decoded with
    | none => ⟨400, none, db, []⟩
    | some req =>
      let safeProductID := SanitizeInput req.product_id
      if dbFails then
        ⟨500, none, db, []⟩
      else
        let res := dbInsert db safeProductID req.quantity
        let orderID := res.1
        let db2 := res.2
        let orderMsg : Notification := ⟨orderID, safeProductID, req.quantity⟩
        let published := if redisFails then [] else [orderMsg]
        ⟨200, some ⟨"Order processed", safeProductID, orderID⟩, db2, published⟩

/-- A JSON value as far as decoding an OrderRequest needs: a string, an
integer number, null, or anything else (which cannot decode into either
field). -/
inductive JVal where
  | jstr (s : String)
  | jint (n : Int)
  | jnull
  | jother
deriving DecidableEq

/-- encoding/json decoding of an object body into OrderRequest, field by
field in source order: a missing field keeps the zero value (empty string,
0), null leaves the field unchanged, a wrong-typed value is a decode
error, unknown keys are ignored, a later duplicate key overwrites.
decodeField applies one key-value pair to the struct being filled. -/
def decodeField (acc : OrderRequest) (k : String) (v : JVal) :
    Option OrderRequest :=
  if k = "product_id" then
    match v with
    | JVal.jstr s => some ⟨s, acc.quantity⟩
    | JVal.jnull => some acc
    | JVal.jint _ => none
    | JVal.jother => none
  else if k = "quantity" then
    match v with
    | JVal.jint n => some ⟨acc.product_id, n⟩
    | JVal.jnull => some acc
    | JVal.jstr _ => none
    | JVal.jother => none
  else
    some acc

def decodeLoop (fields : List (String × JVal)) (acc : OrderRequest) :
    Option OrderRequest :=
  match fields with
  | [] => some acc
  | (k, v) :: rest =>
    match decodeField acc k v with
    | none => none
    | some acc2 => decodeLoop rest acc2

/-- Decode a JSON object body into an OrderRequest, starting from the Go
zero value of the struct. -/
def decodeOrderRequest (fields : List (String × JVal)) :
    Option OrderRequest :=
  decodeLoop fields ⟨"", 0⟩

/-- The bounded connection retry of initDB: up to r more attempts,
starting at attempt index i; ok i says whether the i-th open-plus-ping
succeeds. Returns the index of the first successful attempt, if any. -/
def dbRetry (ok : Nat → Bool) (i : Nat) (r : Nat) : Option Nat :=
  match r with
  | 0 => none
  | r + 1 => if ok i then some i else dbRetry ok (i + 1) r

/-- Number of open-plus-ping attempts the retry loop performs (it stops
right after the first success). -/
def dbAttemptCount (ok : Nat → Bool) (i : Nat) (r : Nat) : Nat :=
  match r with
  | 0 => 0
  | r + 1 => if ok i then 1 else 1 + dbAttemptCount ok (i + 1) r

/-- Time units slept by the retry loop: the source sleeps 2 time units
after every failed attempt (including the last one). -/
def dbSleepUnits (ok : Nat → Bool) (i : Nat) (r : Nat) : Nat :=
  match r with
  | 0 => 0
  | r + 1 => if ok i then 0 else 2 + dbSleepUnits ok (i + 1) r

/-- Observable outcome of the startup sequence main → initDB → initRedis:
how many store connection attempts were made, whether the store connected
and the table was created, how many channel pings were issued, and
whether the process reached the serving state (log.Fatalf on any earlier
failure terminates the process instead). -/
structure StartupResult where
  dbAttempts : Nat
  dbConnected : Bool
  tableCreated : Bool
  redisPings : Nat
  serving : Bool
deriving DecidableEq

/-- Embedding of the startup path: initDB runs the 10-attempt retry loop
and, on connection success, the idempotent CREATE TABLE IF NOT EXISTS
(tableOk says whether that Exec succeeds); any failure is log.Fatalf.
Then initRedis pings the channel exactly once (redisOk); failure is
log.Fatalf. Only after both does main start serving. -/
def startup (dbOk : Nat → Bool) (tableOk : Bool) (redisOk : Bool) :
    StartupResult :=
  match dbRetry dbOk 0 10 with
  | none => ⟨dbAttemptCount dbOk 0 10, false, false, 0, false⟩
  | some _ =>
    if tableOk then
      ⟨dbAttemptCount dbOk 0 10, true, true, 1, redisOk⟩
    else
      ⟨dbAttemptCount dbOk 0 10, true, false, 0, false⟩

/-- A store state is well formed when every existing row's identifier is
below the next serial value: what SERIAL PRIMARY KEY guarantees. -/
def WF (db : DBState) : Prop :=
  ∀ r ∈ db.rows, r.id < db.nextID

/-- The rows of a store state carrying a given order identifier. -/
def rowsWithID (db : DBState) (oid : Nat) : List OrderRow :=
  db.rows.filter (fun r => r.id == oid)

/-- An example empty store state used to instantiate theorems with
hypotheses at concrete inputs. -/
def dbEx : DBState := ⟨1, []⟩

theorem sanitize_filter_idem (s : String) :
    (SanitizeInput (SanitizeInput s)).data = (SanitizeInput s).data := by
  rw [sanitize_data_eq_filter, sanitize_data_eq_filter s,
    List.filter_filter]
  simp

/-- C4: SanitizeInput returns its input with every occurrence of the four
characters below-sign, above-sign, single quote and semicolon removed and
all other characters kept in order; in particular it maps the string
below-sign script above-sign to the bare word script. -/
theorem sanitize_strips_denylist :
    (∀ s : String, (SanitizeInput s).data =
      s.data.filter (fun c => !(dangerous c))) ∧
    SanitizeInput ("<script>") = "script" :=
  ⟨sanitize_data_eq_filter, by decide⟩

/-- C8: SanitizeInput is idempotent, and no character of its output is on
the denylist. -/
theorem sanitize_idempotent_and_clean :
    (∀ s : String, SanitizeInput (SanitizeInput s) = SanitizeInput s) ∧
    (∀ s : String,
      (SanitizeInput s).data.all (fun c => !(dangerous c)) = true) := by
  constructor
  · intro s
    exact String.ext (sanitize_filter_idem s)
  · intro s
    rw [sanitize_data_eq_filter]
    simp only [List.all_eq_true]
    intro c hc
    exact (List.mem_filter.mp hc).2

/-- C1: when the body decodes and the insert succeeds but the publish
fails, the handler still answers 200 with the assigned order identifier,
exactly one row is appended, nothing is published, and the status code,
body and store state are identical to the publish-success run. -/
theorem publish_failure_nonfatal (req : OrderRequest) (db : DBState) :
    (buyHandler methodPost (some req) db false true).code = 200 ∧
    (buyHandler methodPost (some req) db false true).body =
      some ⟨"Order processed", SanitizeInput req.product_id, db.nextID⟩ ∧
    (buyHandler methodPost (some req) db false true).db.rows =
      db.rows ++
        [⟨db.nextID, SanitizeInput req.product_id, req.quantity,
          "pending"⟩] ∧
    (buyHandler methodPost (some req) db false true).published = [] ∧
    (buyHandler methodPost (some req) db false true).code =
      (buyHandler methodPost (some req) db false false).code ∧
    (buyHandler methodPost (some req) db false true).body =
      (buyHandler methodPost (some req) db false false).body ∧
    (buyHandler methodPost (some req) db false true).db =
      (buyHandler methodPost (some req) db false false).db := by
  simp [buyHandler, dbInsert]

/-- C2: when the body decodes but the insert fails, the handler answers
500 with no JSON payload, leaves the store unchanged, and publishes
nothing (the publish step is never reached). -/
theorem store_failure_aborts (req : OrderRequest) (db : DBState)
    (redisFails : Bool) :
    buyHandler methodPost (some req) db true redisFails =
      ⟨500, none, db, []⟩ := by
  simp [buyHandler]

/-- C7: a non-POST method is answered 405 and a POST whose body fails to
decode is answered 400; in both cases the store is unchanged and nothing
is published. -/
theorem reject_wrong_method_and_bad_body :
    (∀ (method : String) (decoded : Option OrderRequest) (db : DBState)
        (dbFails redisFails : Bool), method ≠ methodPost →
      buyHandler method decoded db dbFails redisFails =
        ⟨405, none, db, []⟩) ∧
    (∀ (db : DBState) (dbFails redisFails : Bool),
      buyHandler methodPost none db dbFails redisFails =
        ⟨400, none, db, []⟩) := by
  constructor
  · intro method decoded db dbFails redisFails h
    simp [buyHandler, h]
  · intro db dbFails redisFails
    simp [buyHandler]

/-- Closed instance of reject_wrong_method_and_bad_body at the method GET
and at a malformed body over the empty store. -/
theorem reject_wrong_method_and_bad_body_witness :
    buyHandler ("GET") none dbEx false false = ⟨405, none, dbEx, []⟩ ∧
    buyHandler methodPost none dbEx false false =
      ⟨400, none, dbEx, []⟩ :=
  ⟨reject_wrong_method_and_bad_body.1 ("GET") none dbEx false false
      (by decide),
    reject_wrong_method_and_bad_body.2 dbEx false false⟩

/-- C10: a valid JSON object body missing product_id or quantity (the
empty object included) still decodes, the missing fields taking the zero
values empty string and 0, and with the store up the handler persists
those values and answers 200 with the new order identifier. -/
theorem missing_fields_take_zero_values (p : String) (q : Int)
    (db : DBState) (redisFails : Bool) :
    decodeOrderRequest [] = some ⟨"", 0⟩ ∧
    decodeOrderRequest [("product_id", JVal.jstr p)] = some ⟨p, 0⟩ ∧
    decodeOrderRequest [("quantity", JVal.jint q)] = some ⟨"", q⟩ ∧
    (buyHandler methodPost (decodeOrderRequest []) db false
        redisFails).code = 200 ∧
    (buyHandler methodPost (decodeOrderRequest []) db false
        redisFails).body = some ⟨"Order processed", "", db.nextID⟩ ∧
    (buyHandler methodPost (decodeOrderRequest []) db false
        redisFails).db.rows =
      db.rows ++ [⟨db.nextID, "", 0, "pending"⟩] := by
  have hdec : decodeOrderRequest [] = some ⟨"", 0⟩ := rfl
  have hempty : SanitizeInput "" = "" := by decide
  refine ⟨rfl, rfl, rfl, ?_, ?_, ?_⟩ <;>
    · rw [hdec]
      simp [buyHandler, dbInsert, hempty]

/-- C3: a successful response is a 200 whose payload carries the status
text, the sanitized product identifier and the order identifier, and in
a well-formed store that identifier picks out exactly one row, holding
the sanitized product identifier, the submitted quantity and the status
pending. -/
theorem success_response_matches_unique_row (req : OrderRequest)
    (db : DBState) (redisFails : Bool) (hwf : WF db) :
    (buyHandler methodPost (some req) db false redisFails).code = 200 ∧
    (buyHandler methodPost (some req) db false redisFails).body =
      some ⟨"Order processed", SanitizeInput req.product_id,
        db.nextID⟩ ∧
    rowsWithID (buyHandler methodPost (some req) db false redisFails).db
        db.nextID =
      [⟨db.nextID, SanitizeInput req.product_id, req.quantity,
        "pending"⟩] := by
  refine ⟨by simp [buyHandler, dbInsert],
    by simp [buyHandler, dbInsert], ?_⟩
  have hnil : db.rows.filter (fun r => r.id == db.nextID) = [] := by
    refine List.filter_eq_nil_iff.mpr (fun r hr => ?_)
    simp only [beq_iff_eq]
    exact Nat.ne_of_lt (hwf r hr)
  simp [buyHandler, dbInsert, rowsWithID, List.filter_append, hnil]

/-- Closed instance of success_response_matches_unique_row on the empty
store, which is well formed. -/
theorem success_response_matches_unique_row_witness :
    WF dbEx ∧
    rowsWithID (buyHandler methodPost (some ⟨"a", 2⟩) dbEx false
        false).db dbEx.nextID =
      [⟨dbEx.nextID, SanitizeInput ("a"), 2, "pending"⟩] :=
  ⟨by simp [WF, dbEx],
    (success_response_matches_unique_row ⟨"a", 2⟩ dbEx false
      (by simp [WF, dbEx])).2.2⟩

/-- C5: any notification published by a handler call was published after
a successful insert, carries exactly the order identifier assigned by
that insert together with the sanitized product identifier and the
quantity, and that very row is in the store when the call returns; no
notification exists without a prior persisted order. -/
theorem published_implies_persisted (method : String)
    (decoded : Option OrderRequest) (db : DBState)
    (dbFails redisFails : Bool) (n : Notification)
    (hn : n ∈ (buyHandler method decoded db dbFails
      redisFails).published) :
    dbFails = false ∧
    ∃ req, decoded = some req ∧
      n = ⟨db.nextID, SanitizeInput req.product_id, req.quantity⟩ ∧
      (⟨n.order_id, n.product_id, n.quantity, "pending"⟩ : OrderRow) ∈
        (buyHandler method decoded db dbFails redisFails).db.rows := by
  rcases Decidable.em (method = methodPost) with hm | hm
  · subst hm
    cases decoded with
    | none => simp [buyHandler] at hn
    | some req =>
      cases dbFails with
      | true => simp [buyHandler] at hn
      | false =>
        cases redisFails with
        | true => simp [buyHandler] at hn
        | false =>
          simp [buyHandler, dbInsert] at hn
          refine ⟨rfl, req, rfl, hn, ?_⟩
          subst hn
          simp [buyHandler, dbInsert]
  · simp [buyHandler, hm] at hn

/-- Closed instance of published_implies_persisted: the notification of a
concrete successful request references the row the request persisted. -/
theorem published_implies_persisted_witness :
    ((⟨1, "a", 1⟩ : Notification) ∈
      (buyHandler methodPost (some ⟨"a", 1⟩) dbEx false
        false).published) ∧
    (false = false ∧
      ∃ req : OrderRequest,
        (some (⟨"a", 1⟩ : OrderRequest)) = some req ∧
        (⟨1, "a", 1⟩ : Notification) =
          ⟨dbEx.nextID, SanitizeInput req.product_id, req.quantity⟩ ∧
        (⟨(1 : Nat), "a", (1 : Int), "pending"⟩ : OrderRow) ∈
          (buyHandler methodPost (some ⟨"a", 1⟩) dbEx false
            false).db.rows) :=
  ⟨by decide,
    published_implies_persisted methodPost (some ⟨"a", 1⟩) dbEx false
      false ⟨1, "a", 1⟩ (by decide)⟩

/-- C9 counterexample: the request with product identifier x and
quantity minus one is accepted (200) and its persisted row has a
negative quantity, so not every persisted row has a non-negative
quantity. -/
theorem negative_quantity_persisted :
    (buyHandler methodPost (some ⟨"x", -1⟩) dbEx false false).code =
      200 ∧
    ¬(∀ r ∈ (buyHandler methodPost (some ⟨"x", -1⟩) dbEx false
        false).db.rows, 0 ≤ r.quantity) := by decide

/-- C9 amended: the ingestion path stores exactly the caller-supplied
quantity, with no non-negativity check; the stored quantity is
non-negative exactly when the submitted one is. -/
theorem stored_quantity_equals_submitted (req : OrderRequest)
    (db : DBState) (redisFails : Bool) :
    (buyHandler methodPost (some req) db false redisFails).db.rows =
      db.rows ++ [⟨db.nextID, SanitizeInput req.product_id,
        req.quantity, "pending"⟩] ∧
    (0 ≤ req.quantity →
      (0 : Int) ≤ (⟨db.nextID, SanitizeInput req.product_id,
        req.quantity, "pending"⟩ : OrderRow).quantity) :=
  ⟨by simp [buyHandler, dbInsert], fun h => h⟩

/-- Closed instance of stored_quantity_equals_submitted at a
non-negative submitted quantity. -/
theorem stored_quantity_equals_submitted_witness :
    (0 : Int) ≤ 2 ∧
    (0 : Int) ≤ (⟨dbEx.nextID, SanitizeInput ("b"), 2,
      "pending"⟩ : OrderRow).quantity :=
  ⟨by decide,
    (stored_quantity_equals_submitted ⟨"b", 2⟩ dbEx false).2
      (by decide)⟩

theorem dbAttemptCount_le (ok : Nat → Bool) :
    ∀ (r i : Nat), dbAttemptCount ok i r ≤ r := by
  intro r
  induction r with
  | zero => intro i; simp [dbAttemptCount]
  | succ r ih =>
    intro i
    by_cases h : ok i = true
    · simp [dbAttemptCount, h]
    · have := ih (i + 1)
      simp [dbAttemptCount, h]
      omega

theorem dbRetry_first_success (ok : Nat → Bool) :
    ∀ (k i0 r : Nat), k < r → ok (i0 + k) = true →
    (∀ j, j < k → ok (i0 + j) = false) →
    dbRetry ok i0 r = some (i0 + k) ∧
    dbAttemptCount ok i0 r = k + 1 ∧
    dbSleepUnits ok i0 r = 2 * k := by
  intro k
  induction k with
  | zero =>
    intro i0 r hr hok _
    cases r with
    | zero => exact absurd hr (by omega)
    | succ r =>
      rw [Nat.add_zero] at hok
      exact ⟨by simp [dbRetry, hok], by simp [dbAttemptCount, hok],
        by simp [dbSleepUnits, hok]⟩
  | succ k ih =>
    intro i0 r hr hok hmin
    cases r with
    | zero => exact absurd hr (by omega)
    | succ r =>
      have h0 : ok i0 = false := by
        have := hmin 0 (by omega)
        rwa [Nat.add_zero] at this
      have hok2 : ok (i0 + 1 + k) = true := by
        rw [show i0 + 1 + k = i0 + (k + 1) from by omega]
        exact hok
      have hmin2 : ∀ j, j < k → ok (i0 + 1 + j) = false := by
        intro j hj
        rw [show i0 + 1 + j = i0 + (j + 1) from by omega]
        exact hmin (j + 1) (by omega)
      obtain ⟨h1, h2, h3⟩ := ih (i0 + 1) r (by omega) hok2 hmin2
      rw [show i0 + 1 + k = i0 + (k + 1) from by omega] at h1
      refine ⟨by simp [dbRetry, h0, h1], ?_, ?_⟩
      · simp [dbAttemptCount, h0, h2]
        try omega
      · simp [dbSleepUnits, h0, h3]
        try omega

theorem dbRetry_exhaust (ok : Nat → Bool) :
    ∀ (r i0 : Nat), (∀ j, j < r → ok (i0 + j) = false) →
    dbRetry ok i0 r = none ∧ dbAttemptCount ok i0 r = r := by
  intro r
  induction r with
  | zero => intro i0 _; exact ⟨rfl, rfl⟩
  | succ r ih =>
    intro i0 h
    have h0 : ok i0 = false := by
      have := h 0 (by omega)
      rwa [Nat.add_zero] at this
    have h2 : ∀ j, j < r → ok (i0 + 1 + j) = false := by
      intro j hj
      rw [show i0 + 1 + j = i0 + (j + 1) from by omega]
      exact h (j + 1) (by omega)
    obtain ⟨ha, hb⟩ := ih (i0 + 1) h2
    refine ⟨by simp [dbRetry, h0, ha], ?_⟩
    simp [dbAttemptCount, h0, hb]
    try omega

theorem startup_dbAttempts (dbOk : Nat → Bool) (tableOk redisOk : Bool) :
    (startup dbOk tableOk redisOk).dbAttempts =
      dbAttemptCount dbOk 0 10 := by
  unfold startup
  cases dbRetry dbOk 0 10 with
  | none => rfl
  | some i => by_cases ht : tableOk = true <;> simp [ht]

/-- C6: startup attempts the store connection at most 10 times, waiting 2
time units between attempts and stopping at the first success, then runs
the table creation; the channel is pinged exactly once when that path is
reached; exhausting the 10 attempts, a table-creation failure, or a
failed channel ping each leaves the process not serving. -/
theorem startup_contract (dbOk : Nat → Bool) (tableOk redisOk : Bool) :
    (startup dbOk tableOk redisOk).dbAttempts ≤ 10 ∧
    (∀ k, k < 10 → dbOk k = true → (∀ j, j < k → dbOk j = false) →
      (startup dbOk tableOk redisOk).dbAttempts = k + 1 ∧
      dbSleepUnits dbOk 0 10 = 2 * k ∧
      (startup dbOk tableOk redisOk).dbConnected = true ∧
      (startup dbOk tableOk redisOk).tableCreated = tableOk ∧
      (startup dbOk tableOk redisOk).redisPings =
        (if tableOk then 1 else 0) ∧
      (startup dbOk tableOk redisOk).serving = (tableOk && redisOk)) ∧
    ((∀ j, j < 10 → dbOk j = false) →
      startup dbOk tableOk redisOk = ⟨10, false, false, 0, false⟩) := by
  refine ⟨?_, ?_, ?_⟩
  · rw [startup_dbAttempts]
    exact dbAttemptCount_le dbOk 10 0
  · intro k hk hok hmin
    obtain ⟨h1, h2, h3⟩ := dbRetry_first_success dbOk k 0 10 hk
      (by rwa [Nat.zero_add]) (fun j hj => by
        rw [Nat.zero_add]; exact hmin j hj)
    have hatt := startup_dbAttempts dbOk tableOk redisOk
    rw [hatt, h2]
    unfold startup
    rw [h1]
    by_cases ht : tableOk = true
    · subst ht
      cases redisOk <;> simp [h3]
    · have ht2 : tableOk = false := by
        cases tableOk
        · rfl
        · exact absurd rfl ht
      subst ht2
      simp [h3]
  · intro h
    obtain ⟨ha, hb⟩ := dbRetry_exhaust dbOk 10 0 (fun j hj => by
      rw [Nat.zero_add]; exact h j hj)
    unfold startup
    rw [ha, hb]

/-- Closed instance of startup_contract: with the store up on the third
attempt, startup reports 3 attempts and 4 sleep units and serves; with
the store never up in the window, startup makes 10 attempts and does not
serve. -/
theorem startup_contract_witness :
    (startup (fun i => i == 2) true true).dbAttempts = 3 ∧
    dbSleepUnits (fun i => i == 2) 0 10 = 4 ∧
    (startup (fun i => i == 2) true true).serving = true ∧
    startup (fun _ => false) true true = ⟨10, false, false, 0, false⟩ :=
  ⟨((startup_contract (fun i => i == 2) true true).2.1 2 (by decide)
      (by decide) (by decide)).1,
    ((startup_contract (fun i => i == 2) true true).2.1 2 (by decide)
      (by decide) (by decide)).2.1,
    ((startup_contract (fun i => i == 2) true true).2.1 2 (by decide)
      (by decide) (by decide)).2.2.2.2.2,
    (startup_contract (fun _ => false) true true).2.2 (by decide)⟩

end StoreApi
